import Mathlib

/-!
Verification development for the recon-pipeline task core
(`src/pipeline/recon/nmap.py`).

Strings are modelled as `List Char`; Python's `str.replace`,
`str.split("-")[0]`, and the substring test `in` are embedded as
executable functions below.  The luigi task methods
`ThreadedNmapScan.run`, `ThreadedNmapScan.parse_nmap_output` and
`SearchsploitScan.run` are embedded as pure state-passing functions;
Python exceptions are modelled with `Except`.  The persistent store
(`DBManager`, the `Target`/`NmapResult`/`SearchsploitResult` models)
is not part of `src/`; it is modelled from the spec's store interface
(section 6: `findTargetByAddress`, `appendResult`, `commitAndClose`).
-/

namespace ReconPipeline

/-! ## Python string primitives -/

/-- Fuel-driven worker for Python `str.replace`: scan left to right; at each
position, if the (non-empty) pattern matches, emit the replacement and continue
after the matched segment, otherwise keep the current character.  The fuel is
only a termination device; `pyReplaceGo_fuel` shows any fuel at least the
length of the string gives the same answer. -/
def pyReplaceGo (pat repl : List Char) : Nat → List Char → List Char
  | _, [] => []
  | 0, s => s
  | f + 1, c :: rest =>
    if pat ≠ [] ∧ pat.isPrefixOf (c :: rest) then
      repl ++ pyReplaceGo pat repl f ((c :: rest).drop pat.length)
    else
      c :: pyReplaceGo pat repl f rest

/-- Python `s.replace(pat, repl)` (all occurrences, left to right,
non-overlapping, replacement text not rescanned). -/
def pyReplace (pat repl s : List Char) : List Char :=
  pyReplaceGo pat repl s.length s

/-- Python substring test `pat in s`. -/
def pyContains (pat : List Char) : List Char → Bool
  | [] => pat.isPrefixOf []
  | c :: rest => pat.isPrefixOf (c :: rest) || pyContains pat rest

/-- Python `s.split("-")[0]`: the prefix of `s` before the first dash
(`"".split("-")[0]` is `""`, so `takeWhile` is exact). -/
def splitDashHead (s : List Char) : List Char :=
  s.takeWhile (fun c => c != '-')

/-! ## Fixed strings from the source -/

def nmapDotStr : List Char := "nmap.".toList

def dashTcpStr : List Char := "-tcp".toList

def dashUdpStr : List Char := "-udp".toList

def tcpStr : List Char := "tcp".toList

def udpStr : List Char := "udp".toList

def dashStr : List Char := "-".toList

/-- Start-of-body marker words from `parse_nmap_output`. -/
def portStr : List Char := "PORT".toList

def stateStr : List Char := "STATE".toList

def serviceStr : List Char := "SERVICE".toList

/-- End-of-body marker phrase from `parse_nmap_output`. -/
def serviceDetStr : List Char := "Service detection performed".toList

/-! ## The two address-extraction routines -/

/-- Embedding of `ThreadedNmapScan.parse_nmap_output`, line 101:
`entry.stem.replace("nmap.", "").split("-")[0]`. -/
def extractAddrNmap (stem : List Char) : List Char :=
  splitDashHead (pyReplace nmapDotStr [] stem)

/-- Embedding of `SearchsploitScan.run`, line 272:
`entry.stem.replace("nmap.", "").replace("-tcp", "").replace("-udp", "")`. -/
def extractAddrSS (stem : List Char) : List Char :=
  pyReplace dashUdpStr [] (pyReplace dashTcpStr [] (pyReplace nmapDotStr [] stem))

/-! ## Data model

Modelled from the spec: the store entities (`Target`, `NmapResult`,
`SearchsploitResult`) and the `DBManager` session live in
`pipeline/models`, which is not under `src/`; they are modelled from the
spec's data model (section 3) and store interface (section 6):
a Target owns an IPv4 and/or IPv6 address and append-only result
collections, `findTargetByAddress` is exact-match lookup on either
address field returning the first match or nothing, and the session has
a close operation releasing the connection. -/

inductive PyError where
  /-- Python `list.pop()` from an empty list. -/
  | indexError : PyError
  /-- attribute access on `None`. -/
  | attributeError : PyError
  /-- Python `TypeError`, e.g. `int(None)`. -/
  | typeError : PyError
  /-- Python `ValueError` with its message. -/
  | valueError : List Char → PyError
deriving DecidableEq, Repr

/-- Modelled from the spec: a service-scan result row (spec section 3,
PortScanResult); `text` is the joined captured body. -/
structure NmapResult where
  text : List Char
deriving DecidableEq, Repr

/-- Modelled from the spec: an exploit-match row (spec section 3,
ExploitMatch); the three fields come from `dict.get`, hence optional. -/
structure SearchsploitResult where
  type : Option (List Char)
  title : Option (List Char)
  path : Option (List Char)
deriving DecidableEq, Repr

/-- Modelled from the spec: a Target row with its address fields and
its append-only result collections (spec section 3). -/
structure TargetRec where
  ipv4 : Option (List Char)
  ipv6 : Option (List Char)
  nmap_results : List NmapResult
  searchsploit_results : List SearchsploitResult
deriving DecidableEq, Repr

/-- Modelled from the spec: the store reachable through a `DBManager`
session, plus whether the connection has been released
(spec section 6, `commitAndClose`). -/
structure DB where
  targets : List TargetRec
  closed : Bool
deriving DecidableEq, Repr

/-- Modelled from the spec: `findTargetByAddress` (spec section 6) —
the index of the first Target whose IPv4 or IPv6 address equals the
given address, embedding the `query(Target).filter(or_(...)).first()`
calls at lines 118-122 and 286-290; no match models `first()`
returning `None`. -/
def findTargetIdx (db : DB) (ip : List Char) : Option Nat :=
  db.targets.findIdx? (fun t => t.ipv4 == some ip || t.ipv6 == some ip)

/-- Replace the element at an index (used to write back a mutated Target). -/
def listUpdate {α : Type} (f : α → α) : Nat → List α → List α
  | _, [] => []
  | 0, x :: xs => f x :: xs
  | n + 1, x :: xs => x :: listUpdate f n xs

/-- Modelled from the spec: `tgt.nmap_results.append(nmr)` followed by
`db_mgr.add(tgt)` (spec section 6, `appendResult`). -/
def dbAppendNmap (db : DB) (i : Nat) (r : NmapResult) : DB :=
  { db with targets := listUpdate (fun t => { t with nmap_results := t.nmap_results ++ [r] }) i db.targets }

/-- Modelled from the spec: `tgt.searchsploit_results.append(ssr)` followed by
`db_mgr.add(tgt)` (spec section 6, `appendResult`). -/
def dbAppendSS (db : DB) (i : Nat) (r : SearchsploitResult) : DB :=
  { db with targets := listUpdate (fun t => { t with searchsploit_results := t.searchsploit_results ++ [r] }) i db.targets }

/-! ## The service-scan parser (`ThreadedNmapScan.parse_nmap_output`) -/

/-- Line 108 of the source: `"PORT" in line and "STATE" in line and "SERVICE" in line`. -/
def isStartMarker (line : List Char) : Bool :=
  pyContains portStr line && pyContains stateStr line && pyContains serviceStr line

/-- Line 111 of the source: `"Service detection performed" in line`. -/
def isEndMarker (line : List Char) : Bool :=
  pyContains serviceDetStr line

/-- One iteration of the line loop at lines 103-114: append the line when the
sentry is up, then raise the sentry on a header line, or (otherwise) on the
epilog line pop the last appended line — `list.pop()` on an empty list raises
`IndexError`. -/
def nmapLineStep (sentry : Bool) (text : List (List Char)) (line : List Char) :
    Except PyError (Bool × List (List Char)) :=
  let text1 := if sentry then text ++ [line] else text
  if isStartMarker line then .ok (true, text1)
  else if isEndMarker line then
    match text1 with
    | [] => .error .indexError
    | _ :: _ => .ok (false, text1.dropLast)
  else .ok (sentry, text1)

/-- The whole line loop of `parse_nmap_output` over one artifact's lines,
from a given sentry and accumulated text. -/
def nmapLinesRun (sentry : Bool) (text : List (List Char)) :
    List (List Char) → Except PyError (Bool × List (List Char))
  | [] => .ok (sentry, text)
  | line :: rest =>
    match nmapLineStep sentry text line with
    | .error e => .error e
    | .ok st => nmapLinesRun st.1 st.2 rest

/-- Python `"\n".join(text)` (line 116). -/
def joinLines (ls : List (List Char)) : List Char :=
  List.intercalate ['\n'] ls

/-- One `.nmap` artifact found by the `glob` at line 97: its stem (file name
without the final extension) and its lines. -/
structure Artifact where
  stem : List Char
  lines : List (List Char)
deriving DecidableEq, Repr

/-- The artifact loop of `parse_nmap_output` (lines 95-127): `sentry` is
initialised once before the loop and carried from artifact to artifact, while
`text` is re-initialised per artifact; after the loop `db_mgr.close()` runs.
An `IndexError` from `text.pop()` or an `AttributeError` from appending to a
`None` lookup result propagates immediately, skipping the close. -/
def parse_nmap_output_go (db : DB) (sentry : Bool) :
    List Artifact → DB × Except PyError Unit
  | [] => ({ db with closed := true }, .ok ())
  | a :: rest =>
    let ipaddr := extractAddrNmap a.stem
    match nmapLinesRun sentry [] a.lines with
    | .error e => (db, .error e)
    | .ok st =>
      match findTargetIdx db ipaddr with
      | none => (db, .error .attributeError)
      | some i => parse_nmap_output_go (dbAppendNmap db i ⟨joinLines st.2⟩) st.1 rest

/-- Embedding of `ThreadedNmapScan.parse_nmap_output` (lines 93-127), taking the store and
the `.nmap` artifacts present in the output directory. -/
def parse_nmap_output (db : DB) (arts : List Artifact) : DB × Except PyError Unit :=
  parse_nmap_output_go db false arts

/-! ## `SearchsploitScan.run` (lines 260-301)

The searchsploit tool itself and the exact grammar of its JSON lines are out
of scope (spec section 1: third-party output grammars are non-goals); an
entry is modelled by its artifact stem together with the records recovered by
`ast.literal_eval` from the stdout lines containing `"Title"` — an entry
whose invocation produced no stdout simply has no records.  Correlation and
persistence are embedded faithfully: the Target lookup happens once per
record, an unmatched lookup gives `None` and the following
`tgt.searchsploit_results.append` raises `AttributeError`, and
`db_mgr.close()` runs only after the entry loop completes. -/

/-- One `nmap*.xml` artifact with the records parsed from the searchsploit
stdout lines that contain `"Title"`. -/
structure SSEntry where
  stem : List Char
  records : List SearchsploitResult
deriving DecidableEq, Repr

/-- The per-record part of the line loop (lines 286-299): look the Target up
by the address extracted from the artifact stem, then append the result row. -/
def ssRecordsRun (db : DB) (ipaddr : List Char) :
    List SearchsploitResult → Except PyError DB
  | [] => .ok db
  | r :: rest =>
    match findTargetIdx db ipaddr with
    | none => .error .attributeError
    | some i => ssRecordsRun (dbAppendSS db i r) ipaddr rest

/-- The entry loop of `SearchsploitScan.run`; an exception raised while
correlating propagates immediately, skipping the close at line 301. -/
def searchsploitScan_run_go (db : DB) : List SSEntry → DB × Except PyError Unit
  | [] => ({ db with closed := true }, .ok ())
  | e :: rest =>
    match ssRecordsRun db (extractAddrSS e.stem) e.records with
    | .error err => (db, .error err)
    | .ok db1 => searchsploitScan_run_go db1 rest

/-- Embedding of `SearchsploitScan.run` (lines 260-301). -/
def searchsploitScan_run (db : DB) (entries : List SSEntry) : DB × Except PyError Unit :=
  searchsploitScan_run_go db entries

/-! ## `ThreadedNmapScan.run` (lines 129-185) -/

/-- A luigi parameter value as it reaches `run`: a string, or `None`
(enough to cover Python `int()`'s two failure classes). -/
inductive PyVal where
  | pystr : List Char → PyVal
  | pynone : PyVal
deriving DecidableEq, Repr

/-- Digits of an ASCII decimal numeral to a Nat. -/
def digitsToNat (l : List Char) : Nat :=
  l.foldl (fun a c => a * 10 + (c.toNat - 48)) 0

/-- Strip leading and trailing spaces (Python `int` ignores surrounding
whitespace; only the space character is modelled). -/
def stripSpaces (s : List Char) : List Char :=
  ((s.dropWhile (fun c => c == ' ')).reverse.dropWhile (fun c => c == ' ')).reverse

def valueErrorIntMsg : List Char := "invalid literal for int() with base 10".toList

def maxWorkersMsg : List Char := "max_workers must be greater than 0".toList

/-- Python `int(s)` on a string: optional sign then decimal digits, else
`ValueError`. -/
def pyIntOfStr (s : List Char) : Except PyError Int :=
  let t := stripSpaces s
  match t with
  | '+' :: ds =>
    if !ds.isEmpty && ds.all Char.isDigit then .ok (digitsToNat ds) else .error (.valueError valueErrorIntMsg)
  | '-' :: ds =>
    if !ds.isEmpty && ds.all Char.isDigit then .ok (-(digitsToNat ds : Int)) else .error (.valueError valueErrorIntMsg)
  | ds =>
    if !ds.isEmpty && ds.all Char.isDigit then .ok (digitsToNat ds) else .error (.valueError valueErrorIntMsg)

/-- Python `int(v)`: `None` (and other non-string, non-number values) raise
`TypeError`; strings parse or raise `ValueError`. -/
def pyInt : PyVal → Except PyError Int
  | .pynone => .error .typeError
  | .pystr s => pyIntOfStr s

/-- Python `abs(int(threads))` from line 132. -/
def pyAbsInt (v : PyVal) : Except PyError Nat :=
  (pyInt v).map Int.natAbs

/-- Command-template strings of lines 138-151. -/
def nmapStr : List Char := "nmap".toList

def openFlagStr : List Char := "--open".toList

def sTStr : List Char := "-sT".toList

def sUStr : List Char := "-sU".toList

def nFlagStr : List Char := "-n".toList

def sCStr : List Char := "-sC".toList

def tFlagStr : List Char := "-T".toList

def fourStr : List Char := "4".toList

def sVStr : List Char := "-sV".toList

def pnStr : List Char := "-Pn".toList

def pFlagStr : List Char := "-p".toList

def oAStr : List Char := "-oA".toList

def commaStr : List Char := ",".toList

def slashNmapDotStr : List Char := "/nmap.".toList

/-- The `-oA` argument of line 172:
`str(Path(self.output().path) / f"nmap.{target}-{protocol}")`. -/
def oAPath (outDir target protocol : List Char) : List Char :=
  outDir ++ slashNmapDotStr ++ target ++ dashStr ++ protocol

/-- The per-(target, protocol, ports) command vector built at lines 164-176:
the template with index 2 overwritten by the protocol-dependent scan-type
flag, index 10 by the comma-joined port list, then the `-oA` base path and
the target appended. -/
def buildCommand (outDir target protocol : List Char) (ports : List (List Char)) :
    List (List Char) :=
  [nmapStr, openFlagStr,
   if protocol = tcpStr then sTStr else sUStr,
   nFlagStr, sCStr, tFlagStr, fourStr, sVStr, pnStr, pFlagStr,
   List.intercalate commaStr ports,
   oAStr, oAPath outDir target protocol, target]

/-- The unpickled `ip_dict` (spec section 6: address to protocol to port-set
mapping); the port set is modelled by its iteration order as a list. -/
abbrev IpDict := List (List Char × List (List Char × List (List Char)))

/-- All command vectors built by the nested loop at lines 164-176, in order. -/
def buildCommands (outDir : List Char) (ipDict : IpDict) : List (List (List Char)) :=
  (ipDict.map (fun tp => tp.2.map (fun pp => buildCommand outDir tp.1 pp.1 pp.2))).flatten

instance {ε α : Type} [DecidableEq ε] [DecidableEq α] : DecidableEq (Except ε α) := fun a b =>
  match a, b with
  | .error x, .error y =>
    if h : x = y then .isTrue (congrArg Except.error h)
    else .isFalse (fun hc => h (Except.error.inj hc))
  | .ok x, .ok y =>
    if h : x = y then .isTrue (congrArg Except.ok h)
    else .isFalse (fun hc => h (Except.ok.inj hc))
  | .error _, .ok _ => .isFalse (fun hc => Except.noConfusion hc)
  | .ok _, .error _ => .isFalse (fun hc => Except.noConfusion hc)

/-- Outcome of `ThreadedNmapScan.run`. -/
inductive RunOutcome where
  /-- the `except TypeError` branch: `logging.error(...)` is returned, no work
  is dispatched and no parse happens. -/
  | threadsErrorLogged : RunOutcome
  /-- an exception escapes `run` before any command is dispatched. -/
  | uncaughtExc : PyError → RunOutcome
  /-- the dispatch barrier completed for the given commands and
  `parse_nmap_output` ran with the given result. -/
  | finished : List (List (List Char)) → DB × Except PyError Unit → RunOutcome
deriving DecidableEq, Repr

/-- Embedding of `ThreadedNmapScan.run` (lines 129-185).  `try: threads = abs(int(threads))`
catches only `TypeError`; a `ValueError` propagates.  `ip_dict` stands for the
already-unpickled upstream input, `arts` for the `.nmap` artifacts the scans
leave in the output directory (the scan tools are opaque, spec section 1).
`ThreadPoolExecutor(max_workers=0)` raises
`ValueError("max_workers must be greater than 0")` before anything is
submitted, so with zero threads nothing is dispatched and the parse is never
reached. -/
def threadedNmapScan_run (threads : PyVal) (ipDict : IpDict) (outDir : List Char)
    (db : DB) (arts : List Artifact) : RunOutcome :=
  match pyAbsInt threads with
  | .error .typeError => .threadsErrorLogged
  | .error e => .uncaughtExc e
  | .ok n =>
    let commands := buildCommands outDir ipDict
    if n = 0 then .uncaughtExc (.valueError maxWorkersMsg)
    else .finished commands (parse_nmap_output db arts)

/-! ## Task state for the high-water-mark baseline -/

/-- The state `ThreadedNmapScan.__init__` (lines 49-52) builds: the store
session and the recorded baseline `highest_id` (the highest primary-key id of
the `NmapResult` table at construction time; its computation is the store's
`getHighestId`, modelled as the recorded value itself). -/
structure ThreadedNmapScanTask where
  db : DB
  highest_id : Nat

/-- Embedding of `parse_nmap_output` as invoked on the task instance: the body at lines
93-127 reads `self.db_mgr` and the artifact directory and does not mention
`self.highest_id`. -/
def task_parse_nmap_output (task : ThreadedNmapScanTask) (arts : List Artifact) :
    DB × Except PyError Unit :=
  parse_nmap_output task.db arts

/-! ## Concrete fixtures used by witnesses and counterexamples -/

def startLineStr : List Char := "PORT   STATE SERVICE  VERSION".toList

def bodyLine1Str : List Char := "22/tcp open ssh".toList

def bodyLine2Str : List Char := "80/tcp open http".toList

def endLineStr : List Char := "Service detection performed.".toList

def leakLineStr : List Char := "leaked line".toList

def plainLineStr : List Char := "Starting Nmap 7.80".toList

def ip5Str : List Char := "10.10.10.5".toList

def ip9Str : List Char := "10.9.9.9".toList

def ip1Str : List Char := "1.1.1.1".toList

def ip2Str : List Char := "2.2.2.2".toList

def mkTarget (ip : List Char) : TargetRec := ⟨some ip, none, [], []⟩

def cDb5 : DB := ⟨[mkTarget ip5Str], false⟩

def cDb12 : DB := ⟨[mkTarget ip1Str, mkTarget ip2Str], false⟩

def stem5Str : List Char := "nmap.10.10.10.5-tcp".toList

def stem9Str : List Char := "nmap.10.9.9.9-tcp".toList

def stem1Str : List Char := "nmap.1.1.1.1-tcp".toList

def stem2Str : List Char := "nmap.2.2.2.2-tcp".toList

def cArtMatched : Artifact := ⟨stem5Str, [startLineStr, bodyLine1Str, endLineStr]⟩

def cArtUnmatched : Artifact := ⟨stem9Str, [startLineStr, bodyLine1Str, endLineStr]⟩

def cArtEndOnly : Artifact := ⟨stem5Str, [endLineStr]⟩

def cArtBare : Artifact := ⟨stem5Str, [plainLineStr]⟩

def cArtNoEnd : Artifact := ⟨stem1Str, [startLineStr]⟩

def cArtClosed1 : Artifact := ⟨stem1Str, [startLineStr, bodyLine1Str, endLineStr]⟩

def cArtVictim : Artifact := ⟨stem2Str, [leakLineStr, startLineStr, bodyLine2Str, endLineStr]⟩

def abcStr : List Char := "abc".toList

def zeroStr : List Char := "0".toList

def cOutDirStr : List Char := "results/nmap-results".toList

def port22Str : List Char := "22".toList

def port80Str : List Char := "80".toList

def cPorts : List (List Char) := [port22Str, port80Str]

def dashAddrStr : List Char := "a-b".toList

def cStemDashAddr : List Char := nmapDotStr ++ dashAddrStr ++ dashStr ++ tcpStr

def aOnlyStr : List Char := "a".toList

/-! # Theorems -/

/-! ## Sanity checks for the string primitives -/

example : extractAddrNmap stem5Str = ip5Str := by decide

example : extractAddrSS stem9Str = ip9Str := by decide

example : pyReplace nmapDotStr [] cStemDashAddr = dashAddrStr ++ dashStr ++ tcpStr := by decide

example : isStartMarker startLineStr = true ∧ isEndMarker startLineStr = false := by decide

example : isStartMarker endLineStr = false ∧ isEndMarker endLineStr = true := by decide

/-! ## Evaluation equations for `pyReplace` -/

theorem pyReplaceGo_fuel (pat repl : List Char) :
    ∀ (f : Nat) (s : List Char), s.length ≤ f →
      pyReplaceGo pat repl f s = pyReplaceGo pat repl s.length s
  | f, [], _ => by cases f <;> rfl
  | 0, c :: rest, h => by simp at h
  | f + 1, c :: rest, h => by
    have hf : rest.length ≤ f := by
      simp only [List.length_cons] at h
      omega
    rw [List.length_cons]
    simp only [pyReplaceGo]
    by_cases hc : pat ≠ [] ∧ pat.isPrefixOf (c :: rest)
    · rw [if_pos hc, if_pos hc]
      have hp1 : 1 ≤ pat.length := List.length_pos.mpr hc.1
      have hd : ((c :: rest).drop pat.length).length ≤ rest.length := by
        simp only [List.length_drop, List.length_cons]
        omega
      rw [pyReplaceGo_fuel pat repl f _ (hd.trans hf),
          pyReplaceGo_fuel pat repl rest.length _ hd]
    · rw [if_neg hc, if_neg hc]
      rw [pyReplaceGo_fuel pat repl f rest hf,
          pyReplaceGo_fuel pat repl rest.length rest le_rfl]
termination_by f _ _ => f

theorem pyReplace_nil (pat repl : List Char) : pyReplace pat repl [] = [] := rfl

theorem pyReplace_cons_match (pat repl : List Char) (c : Char) (rest : List Char)
    (h1 : pat ≠ []) (h2 : pat <+: c :: rest) :
    pyReplace pat repl (c :: rest) = repl ++ pyReplace pat repl ((c :: rest).drop pat.length) := by
  unfold pyReplace
  rw [List.length_cons]
  simp only [pyReplaceGo]
  rw [if_pos ⟨h1, List.isPrefixOf_iff_prefix.mpr h2⟩]
  congr 1
  apply pyReplaceGo_fuel
  have hp1 : 1 ≤ pat.length := List.length_pos.mpr h1
  simp only [List.length_drop, List.length_cons]
  omega

theorem pyReplace_cons_nomatch (pat repl : List Char) (c : Char) (rest : List Char)
    (h2 : ¬ pat <+: c :: rest) :
    pyReplace pat repl (c :: rest) = c :: pyReplace pat repl rest := by
  unfold pyReplace
  rw [List.length_cons]
  simp only [pyReplaceGo]
  rw [if_neg (fun hc => h2 (List.isPrefixOf_iff_prefix.mp hc.2))]

theorem pyReplace_cancel (pat repl t : List Char) (h1 : pat ≠ []) :
    pyReplace pat repl (pat ++ t) = repl ++ pyReplace pat repl t := by
  cases pat with
  | nil => exact absurd rfl h1
  | cons p ps =>
    rw [List.cons_append,
        pyReplace_cons_match (p :: ps) repl p (ps ++ t) h1
          (by rw [← List.cons_append]; exact List.prefix_append _ _)]
    congr 1
    rw [← List.cons_append, List.drop_left]

theorem mem_pyReplace (pat : List Char) (hne : pat ≠ []) :
    ∀ (s : List Char) (x : Char), x ∈ pyReplace pat [] s → x ∈ s
  | [], x, h => by rw [pyReplace_nil] at h; exact absurd h (List.not_mem_nil x)
  | c :: rest, x, h => by
    by_cases hp : pat <+: c :: rest
    · rw [pyReplace_cons_match pat [] c rest hne hp, List.nil_append] at h
      exact List.mem_of_mem_drop (mem_pyReplace pat hne _ x h)
    · rw [pyReplace_cons_nomatch pat [] c rest hp] at h
      rcases List.mem_cons.mp h with h | h
      · exact h ▸ List.mem_cons_self c rest
      · exact List.mem_cons_of_mem c (mem_pyReplace pat hne rest x h)
termination_by s _ _ => s.length
decreasing_by
  · have hp1 : 1 ≤ pat.length := List.length_pos.mpr hne
    simp only [List.length_drop, List.length_cons]
    omega
  · simp only [List.length_cons]
    omega

theorem prefix_split_sep (pat l r : List Char) (sep : Char) (hsp : sep ∉ pat)
    (h : pat <+: l ++ sep :: r) : pat <+: l := by
  obtain ⟨t, ht⟩ := h
  have hpat : pat = (l ++ sep :: r).take pat.length := by
    rw [← ht, List.take_left]
  by_cases hle : pat.length ≤ l.length
  · rw [List.take_append_of_le_length hle] at hpat
    rw [hpat]
    exact List.take_prefix _ _
  · exfalso
    push_neg at hle
    have hmem : sep ∈ (l ++ sep :: r).take pat.length := by
      rw [List.take_append_eq_append_take]
      apply List.mem_append_right
      cases hk : pat.length - l.length with
      | zero => omega
      | succ k => simp [List.take_succ_cons]
    exact hsp (hpat ▸ hmem)

theorem cons_prefix_neq {a b : Char} (h : a ≠ b) (xs ys : List Char) :
    ¬ (a :: xs) <+: b :: ys := by
  rintro ⟨t, ht⟩
  rw [List.cons_append] at ht
  injection ht with h1 _
  exact h h1

theorem pyReplace_append_sep (pat : List Char) (hne : pat ≠ []) (sep : Char) (hsp : sep ∉ pat) :
    ∀ (l r : List Char), sep ∉ l →
      pyReplace pat [] (l ++ sep :: r) = pyReplace pat [] l ++ sep :: pyReplace pat [] r
  | [], r, _ => by
    have hnp : ¬ pat <+: sep :: r := by
      cases pat with
      | nil => exact absurd rfl hne
      | cons p ps =>
        intro hq
        obtain ⟨t, ht⟩ := hq
        rw [List.cons_append] at ht
        injection ht with h1 _
        exact hsp (h1 ▸ List.mem_cons_self p ps)
    rw [List.nil_append, pyReplace_cons_nomatch pat [] sep r hnp, pyReplace_nil,
        List.nil_append]
  | c :: l', r, hcl => by
    have hl' : sep ∉ l' := fun hm => hcl (List.mem_cons_of_mem c hm)
    by_cases hp : pat <+: (c :: l') ++ sep :: r
    · have hpl : pat <+: c :: l' := prefix_split_sep pat (c :: l') r sep hsp hp
      have hle : pat.length ≤ (c :: l').length := hpl.length_le
      have hdm : sep ∉ (c :: l').drop pat.length := fun hm => hcl (List.mem_of_mem_drop hm)
      rw [List.cons_append,
          pyReplace_cons_match pat [] c (l' ++ sep :: r) hne
            (by rw [← List.cons_append]; exact hp),
          List.nil_append, ← List.cons_append, List.drop_append_of_le_length hle,
          pyReplace_append_sep pat hne sep hsp ((c :: l').drop pat.length) r hdm,
          pyReplace_cons_match pat [] c l' hne hpl, List.nil_append]
    · have hps : ¬ pat <+: c :: l' := fun hq => hp (hq.trans (List.prefix_append _ _))
      rw [List.cons_append,
          pyReplace_cons_nomatch pat [] c (l' ++ sep :: r)
            (by rw [← List.cons_append]; exact hp),
          pyReplace_cons_nomatch pat [] c l' hps,
          pyReplace_append_sep pat hne sep hsp l' r hl', List.cons_append]
termination_by l _ _ => l.length
decreasing_by
  · have hp1 : 1 ≤ pat.length := List.length_pos.mpr hne
    simp only [List.length_drop, List.length_cons]
    omega
  · simp only [List.length_cons]
    omega

theorem pyReplace_strip_tail (sep : Char) (p' : List Char) :
    ∀ (l : List Char), sep ∉ l →
      pyReplace (sep :: p') [] (l ++ (sep :: p')) = l
  | [], _ => by
    have h2 : pyReplace (sep :: p') [] ((sep :: p') ++ []) = [] ++ pyReplace (sep :: p') [] [] :=
      pyReplace_cancel (sep :: p') [] [] (by simp)
    rw [List.append_nil] at h2
    simpa [pyReplace_nil] using h2
  | c :: l', h => by
    have hc : c ≠ sep := fun hq => h (hq ▸ List.mem_cons_self c l')
    rw [List.cons_append,
        pyReplace_cons_nomatch (sep :: p') [] c (l' ++ (sep :: p'))
          (cons_prefix_neq (fun hq => hc hq.symm) p' _),
        pyReplace_strip_tail sep p' l' (fun hm => h (List.mem_cons_of_mem c hm))]

theorem pyReplace_id (sep : Char) (p' : List Char) :
    ∀ (l : List Char), sep ∉ l → pyReplace (sep :: p') [] l = l
  | [], _ => pyReplace_nil _ _
  | c :: l', h => by
    have hc : c ≠ sep := fun hq => h (hq ▸ List.mem_cons_self c l')
    rw [pyReplace_cons_nomatch (sep :: p') [] c l'
          (cons_prefix_neq (fun hq => hc hq.symm) p' l'),
        pyReplace_id sep p' l' (fun hm => h (List.mem_cons_of_mem c hm))]

theorem pyReplace_skip_sep (sep : Char) (p' r : List Char)
    (hnp : ¬ (sep :: p') <+: sep :: r) (hr : sep ∉ r) :
    ∀ (l : List Char), sep ∉ l →
      pyReplace (sep :: p') [] (l ++ sep :: r) = l ++ sep :: r
  | [], _ => by
    rw [List.nil_append, pyReplace_cons_nomatch (sep :: p') [] sep r hnp,
        pyReplace_id sep p' r hr]
  | c :: l', h => by
    have hc : c ≠ sep := fun hq => h (hq ▸ List.mem_cons_self c l')
    rw [List.cons_append,
        pyReplace_cons_nomatch (sep :: p') [] c (l' ++ sep :: r)
          (cons_prefix_neq (fun hq => hc hq.symm) p' _),
        pyReplace_skip_sep sep p' r hnp hr l' (fun hm => h (List.mem_cons_of_mem c hm))]

theorem takeWhile_append_sep (sep : Char) :
    ∀ (l r : List Char), sep ∉ l →
      (l ++ sep :: r).takeWhile (fun c => c != sep) = l
  | [], r, _ => by simp [List.takeWhile_cons]
  | c :: l', r, h => by
    have hc : c ≠ sep := fun hq => h (hq ▸ List.mem_cons_self c l')
    rw [List.cons_append, List.takeWhile_cons]
    simp only [bne_iff_ne, ne_eq, hc, not_false_eq_true, if_true, reduceIte]
    rw [takeWhile_append_sep sep l' r (fun hm => h (List.mem_cons_of_mem c hm))]

/-! ## Claim C10: agreement of the two address extractors -/

/-- Claim C10, counterexample: for the stem `nmap.a-b-tcp` — of the claimed
form with `<address> = a-b` and `<protocol> = tcp` — the service-scan
extraction yields `a` while the exploit-match extraction yields `a-b`, so the
two routines do not agree on every stem of that form. -/
theorem c10_counterexample :
    cStemDashAddr = nmapDotStr ++ dashAddrStr ++ dashStr ++ tcpStr ∧
    extractAddrNmap cStemDashAddr = aOnlyStr ∧
    extractAddrSS cStemDashAddr = dashAddrStr ∧
    extractAddrNmap cStemDashAddr ≠ extractAddrSS cStemDashAddr := by
  refine ⟨rfl, by decide, by decide, by decide⟩

/-- Claim C10, amended: for every stem of the form `nmap.<address>-<protocol>`
with protocol `tcp` or `udp`, the address recovered by the service-scan parser
(strip `nmap.`, split on `-`, first field) equals the address recovered by the
exploit-match parser (strip `nmap.`, delete `-tcp` and `-udp`) whenever
`<address>` contains no `-`; with a dash in the address the two differ, as the
counterexample shows. -/
theorem c10_addr_extract_agree (addr proto : List Char)
    (hp : proto = tcpStr ∨ proto = udpStr) (hd : '-' ∉ addr) :
    extractAddrNmap (nmapDotStr ++ addr ++ dashStr ++ proto) =
      extractAddrSS (nmapDotStr ++ addr ++ dashStr ++ proto) := by
  have hds : dashStr = ['-'] := rfl
  have e1 : nmapDotStr ++ addr ++ dashStr ++ proto = nmapDotStr ++ (addr ++ '-' :: proto) := by
    rw [hds]
    simp [List.append_assoc]
  rw [e1]
  have hne : nmapDotStr ≠ [] := by decide
  have hdp : '-' ∉ nmapDotStr := by decide
  have e2 : pyReplace nmapDotStr [] (nmapDotStr ++ (addr ++ '-' :: proto)) =
      pyReplace nmapDotStr [] addr ++ '-' :: pyReplace nmapDotStr [] proto := by
    rw [pyReplace_cancel nmapDotStr [] _ hne, List.nil_append]
    exact pyReplace_append_sep nmapDotStr hne '-' hdp addr proto hd
  have e3 : pyReplace nmapDotStr [] proto = proto := by
    rcases hp with h | h <;> subst h <;> decide
  have hra : '-' ∉ pyReplace nmapDotStr [] addr :=
    fun hm => hd (mem_pyReplace nmapDotStr hne addr '-' hm)
  have eL : extractAddrNmap (nmapDotStr ++ (addr ++ '-' :: proto)) =
      pyReplace nmapDotStr [] addr := by
    unfold extractAddrNmap splitDashHead
    rw [e2, e3]
    exact takeWhile_append_sep '-' (pyReplace nmapDotStr [] addr) proto hra
  have eR : extractAddrSS (nmapDotStr ++ (addr ++ '-' :: proto)) =
      pyReplace nmapDotStr [] addr := by
    unfold extractAddrSS
    rw [e2, e3]
    rcases hp with h | h <;> subst h
    · have e4 : pyReplace dashTcpStr [] (pyReplace nmapDotStr [] addr ++ '-' :: tcpStr) =
          pyReplace nmapDotStr [] addr :=
        pyReplace_strip_tail '-' tcpStr (pyReplace nmapDotStr [] addr) hra
      have e5 : pyReplace dashUdpStr [] (pyReplace nmapDotStr [] addr) =
          pyReplace nmapDotStr [] addr :=
        pyReplace_id '-' udpStr (pyReplace nmapDotStr [] addr) hra
      rw [e4, e5]
    · have e4 : pyReplace dashTcpStr [] (pyReplace nmapDotStr [] addr ++ '-' :: udpStr) =
          pyReplace nmapDotStr [] addr ++ '-' :: udpStr :=
        pyReplace_skip_sep '-' tcpStr udpStr (by decide) (by decide)
          (pyReplace nmapDotStr [] addr) hra
      have e5 : pyReplace dashUdpStr [] (pyReplace nmapDotStr [] addr ++ '-' :: udpStr) =
          pyReplace nmapDotStr [] addr :=
        pyReplace_strip_tail '-' udpStr (pyReplace nmapDotStr [] addr) hra
      rw [e4, e5]
  rw [eL, eR]

/-- Claim C10, witness: the amended agreement theorem applied at the concrete
stem `nmap.10.10.10.5-tcp`. -/
theorem c10_witness :
    extractAddrNmap (nmapDotStr ++ ip5Str ++ dashStr ++ tcpStr) =
      extractAddrSS (nmapDotStr ++ ip5Str ++ dashStr ++ tcpStr) :=
  c10_addr_extract_agree ip5Str tcpStr (Or.inl rfl) (by decide)

/-! ## Step lemmas for the service-scan line loop -/

theorem nmapLinesRun_cons (sentry : Bool) (t : List (List Char)) (line : List Char)
    (rest : List (List Char)) :
    nmapLinesRun sentry t (line :: rest) =
      match nmapLineStep sentry t line with
      | .error e => .error e
      | .ok st => nmapLinesRun st.1 st.2 rest := rfl

theorem nmapLineStep_start_false (t : List (List Char)) (line : List Char)
    (hs : isStartMarker line = true) :
    nmapLineStep false t line = .ok (true, t) := by
  simp [nmapLineStep, hs]

theorem nmapLineStep_none_false (t : List (List Char)) (line : List Char)
    (hns : isStartMarker line = false) (hne : isEndMarker line = false) :
    nmapLineStep false t line = .ok (false, t) := by
  simp [nmapLineStep, hns, hne]

theorem nmapLineStep_none_true (t : List (List Char)) (line : List Char)
    (hns : isStartMarker line = false) (hne : isEndMarker line = false) :
    nmapLineStep true t line = .ok (true, t ++ [line]) := by
  simp [nmapLineStep, hns, hne]

theorem nmapLineStep_end_true (t : List (List Char)) (line : List Char)
    (he : isEndMarker line = true) (hns : isStartMarker line = false) :
    nmapLineStep true t line = .ok (false, t) := by
  rcases t with _ | ⟨a, t'⟩
  · simp [nmapLineStep, hns, he]
  · simp only [nmapLineStep, hns, he, Bool.false_eq_true, if_true, if_false, reduceIte]
    show Except.ok (false, ((a :: t') ++ [line]).dropLast) = Except.ok (false, a :: t')
    rw [List.dropLast_concat]

theorem nmapLinesRun_skip :
    ∀ (xs : List (List Char)),
      (∀ l ∈ xs, isStartMarker l = false ∧ isEndMarker l = false) →
      ∀ (t rest : List (List Char)),
        nmapLinesRun false t (xs ++ rest) = nmapLinesRun false t rest
  | [], _, _, _ => rfl
  | x :: xs', h, t, rest => by
    have hx := h x (List.mem_cons_self x xs')
    rw [List.cons_append, nmapLinesRun_cons, nmapLineStep_none_false t x hx.1 hx.2]
    exact nmapLinesRun_skip xs' (fun l hl => h l (List.mem_cons_of_mem x hl)) t rest

theorem nmapLinesRun_collect :
    ∀ (xs : List (List Char)),
      (∀ l ∈ xs, isStartMarker l = false ∧ isEndMarker l = false) →
      ∀ (t rest : List (List Char)),
        nmapLinesRun true t (xs ++ rest) = nmapLinesRun true (t ++ xs) rest
  | [], _, t, _ => by rw [List.nil_append, List.append_nil]
  | x :: xs', h, t, rest => by
    have hx := h x (List.mem_cons_self x xs')
    rw [List.cons_append, nmapLinesRun_cons, nmapLineStep_none_true t x hx.1 hx.2]
    show nmapLinesRun true (t ++ [x]) (xs' ++ rest) = _
    rw [nmapLinesRun_collect xs' (fun l hl => h l (List.mem_cons_of_mem x hl)) (t ++ [x]) rest,
        ← List.append_cons]

/-! ## Claim C5: parser round-trip -/

/-- Claim C5, counterexample: for the artifact consisting of no leading lines,
the start marker line, one body line, the end marker line, and one trailing
line that happens to contain the end-marker phrase again, the captured body is
empty rather than the body line — the loop pops the last captured line at
every line containing the epilog phrase, so trailing content is not inert. -/
theorem c5_counterexample :
    nmapLinesRun false []
        ([] ++ startLineStr :: ([bodyLine1Str] ++ endLineStr :: [endLineStr])) =
      .ok (false, []) ∧
    nmapLinesRun false []
        ([] ++ startLineStr :: ([bodyLine1Str] ++ endLineStr :: [endLineStr])) ≠
      .ok (false, [bodyLine1Str]) := by
  exact ⟨by decide, by decide⟩

/-- Claim C5, amended: for every artifact consisting of leading lines, a start
marker line, N body lines, an end marker line, and trailing lines, where none
of the leading, body, or trailing lines matches the start- or end-marker
patterns themselves (and the end marker line is not also a header line), the
captured body equals exactly the N body lines in order, with the end marker
line excluded. -/
theorem c5_parser_roundtrip (lead body trail : List (List Char)) (s e : List Char)
    (hlead : ∀ l ∈ lead, isStartMarker l = false ∧ isEndMarker l = false)
    (hbody : ∀ l ∈ body, isStartMarker l = false ∧ isEndMarker l = false)
    (htrail : ∀ l ∈ trail, isStartMarker l = false ∧ isEndMarker l = false)
    (hs : isStartMarker s = true)
    (he : isEndMarker e = true) (hes : isStartMarker e = false) :
    nmapLinesRun false [] (lead ++ s :: (body ++ e :: trail)) = .ok (false, body) := by
  rw [nmapLinesRun_skip lead hlead [] (s :: (body ++ e :: trail)),
      nmapLinesRun_cons, nmapLineStep_start_false [] s hs]
  show nmapLinesRun true [] (body ++ e :: trail) = _
  rw [nmapLinesRun_collect body hbody [] (e :: trail), List.nil_append,
      nmapLinesRun_cons, nmapLineStep_end_true body e he hes]
  show nmapLinesRun false body trail = _
  have htr := nmapLinesRun_skip trail htrail body []
  rw [List.append_nil] at htr
  rw [htr]
  rfl

/-- Claim C5, witness: the amended round-trip theorem at a concrete artifact
with one leading line, two body lines and one trailing line. -/
theorem c5_witness :
    nmapLinesRun false []
        ([plainLineStr] ++ startLineStr ::
          ([bodyLine1Str, bodyLine2Str] ++ endLineStr :: [plainLineStr])) =
      .ok (false, [bodyLine1Str, bodyLine2Str]) :=
  c5_parser_roundtrip [plainLineStr] [bodyLine1Str, bodyLine2Str] [plainLineStr]
    startLineStr endLineStr (by decide) (by decide) (by decide) (by decide) (by decide)
    (by decide)

/-! ## Claim C2: artifact without a start marker -/

/-- Claim C2: an artifact with no start marker and no end-marker phrase does
persist an empty result without raising, but an artifact that contains the
end-marker phrase with no preceding header makes `text.pop()` run on an empty
list: the parse raises `IndexError` instead of persisting an empty result,
contradicting the claim precisely in its "including when the artifact does
contain the end marker phrase" case (the skipped close is visible in the
unchanged store). -/
theorem c2_end_marker_raises :
    parse_nmap_output cDb5 [cArtEndOnly] = (cDb5, .error .indexError) ∧
    parse_nmap_output cDb5 [cArtBare] =
      (⟨[⟨some ip5Str, none, [⟨[]⟩], []⟩], true⟩, .ok ()) := by
  exact ⟨by decide, by decide⟩

/-! ## Claim C1: unmatched address during correlation -/

/-- Claim C1: a parsed record whose extracted address (`10.9.9.9`) matches no
Target makes the `first()` lookup return `None`, and the unguarded
`tgt.nmap_results.append` raises `AttributeError`: the record is neither
reported-and-continued nor merely dropped — the whole remaining batch (here a
second, matchable artifact) is aborted and nothing is persisted, while the
same batch without the unmatched record persists its result and completes. -/
theorem c1_unmatched_target_aborts :
    parse_nmap_output cDb5 [cArtUnmatched, cArtMatched] = (cDb5, .error .attributeError) ∧
    parse_nmap_output cDb5 [cArtMatched] =
      (⟨[⟨some ip5Str, none, [⟨bodyLine1Str⟩], []⟩], true⟩, .ok ()) := by
  exact ⟨by decide, by decide⟩

/-! ## Claim C9: parse state across artifacts -/

/-- Claim C9, counterexample: the `sentry` flag is initialised once per
correlation pass, not once per artifact.  Processing the victim artifact
alone captures only its in-marker body line, but processing it after an
artifact that has a start marker and no end marker captures the victim's
leading lines as well — the persisted body is not a function of the
artifact's contents alone. -/
theorem c9_counterexample :
    (parse_nmap_output cDb12 [cArtNoEnd, cArtVictim]).1.targets[1]? =
      some ⟨some ip2Str, none, [⟨joinLines [leakLineStr, startLineStr, bodyLine2Str]⟩], []⟩ ∧
    (parse_nmap_output cDb12 [cArtVictim]).1.targets[1]? =
      some ⟨some ip2Str, none, [⟨joinLines [bodyLine2Str]⟩], []⟩ ∧
    joinLines [leakLineStr, startLineStr, bodyLine2Str] ≠ joinLines [bodyLine2Str] := by
  exact ⟨by decide, by decide, by decide⟩

/-- Claim C9, amended: the text buffer is reset per artifact, but the
in-marker flag is not; what holds is that whenever an earlier artifact leaves
the flag down (its markers are balanced) and correlates, the rest of the pass
runs exactly as a fresh pass on the updated store — so an artifact's persisted
body is a function of its own contents only under that condition, and an
artifact lacking the end marker does leak later artifacts' leading lines into
those artifacts' own persisted results. -/
theorem c9_reset_when_closed (db : DB) (a1 a2 : Artifact) (t : List (List Char)) (i : Nat)
    (h1 : nmapLinesRun false [] a1.lines = .ok (false, t))
    (h2 : findTargetIdx db (extractAddrNmap a1.stem) = some i) :
    parse_nmap_output db [a1, a2] =
      parse_nmap_output (dbAppendNmap db i ⟨joinLines t⟩) [a2] := by
  show parse_nmap_output_go db false [a1, a2] = _
  rw [parse_nmap_output_go, h1, h2]
  rfl

/-- Claim C9, witness: the amended theorem at a first artifact whose markers
are balanced. -/
theorem c9_witness :
    parse_nmap_output cDb12 [cArtClosed1, cArtVictim] =
      parse_nmap_output (dbAppendNmap cDb12 0 ⟨joinLines [bodyLine1Str]⟩) [cArtVictim] :=
  c9_reset_when_closed cDb12 cArtClosed1 cArtVictim [bodyLine1Str] 0 (by decide) (by decide)

/-! ## Claim C7: release of the store connection -/

theorem parse_go_closed_of_ok :
    ∀ (arts : List Artifact) (db : DB) (sentry : Bool),
      (parse_nmap_output_go db sentry arts).2 = .ok () →
      (parse_nmap_output_go db sentry arts).1.closed = true
  | [], _, _, _ => rfl
  | a :: rest, db, sentry, h => by
    rcases hr : nmapLinesRun sentry [] a.lines with e | st
    · simp only [parse_nmap_output_go, hr] at h
      simp at h
    · simp only [parse_nmap_output_go, hr] at h ⊢
      rcases hf : findTargetIdx db (extractAddrNmap a.stem) with _ | i
      · rw [hf] at h
        simp at h
      · rw [hf] at h
        exact parse_go_closed_of_ok rest _ st.1 h

theorem ss_go_closed_of_ok :
    ∀ (es : List SSEntry) (db : DB),
      (searchsploitScan_run_go db es).2 = .ok () →
      (searchsploitScan_run_go db es).1.closed = true
  | [], _, _ => rfl
  | e :: rest, db, h => by
    rcases hr : ssRecordsRun db (extractAddrSS e.stem) e.records with err | db1
    · simp only [searchsploitScan_run_go, hr] at h
      simp at h
    · simp only [searchsploitScan_run_go, hr] at h ⊢
      exact ss_go_closed_of_ok rest db1 h

/-- Claim C7, counterexample: on the exception path (here an unmatched
correlation on the first artifact) the `db_mgr.close()` at the end of the loop
is never reached — there is no scoped acquisition or `finally` — so control
leaves the run with the store connection still open. -/
theorem c7_counterexample :
    (parse_nmap_output cDb5 [cArtUnmatched]).2 = .error .attributeError ∧
    (parse_nmap_output cDb5 [cArtUnmatched]).1.closed = false := by
  exact ⟨by decide, by decide⟩

/-- Claim C7, amended: the store connection is released on the normal-exit
path of both correlation passes — whenever `parse_nmap_output` or
`SearchsploitScan.run` completes without an exception, the store is closed on
the way out; on an exception raised while parsing or correlating the close is
skipped, as the counterexample shows. -/
theorem c7_close_on_success (db : DB) (arts : List Artifact) (db2 : DB) (es : List SSEntry) :
    ((parse_nmap_output db arts).2 = .ok () → (parse_nmap_output db arts).1.closed = true) ∧
    ((searchsploitScan_run db2 es).2 = .ok () →
      (searchsploitScan_run db2 es).1.closed = true) :=
  ⟨parse_go_closed_of_ok arts db false, ss_go_closed_of_ok es db2⟩

/-- Claim C7, witness: the amended theorem at a successful nmap correlation
pass and an empty searchsploit pass. -/
theorem c7_witness :
    (parse_nmap_output cDb5 [cArtMatched]).1.closed = true ∧
    (searchsploitScan_run cDb5 []).1.closed = true :=
  ⟨(c7_close_on_success cDb5 [cArtMatched] cDb5 []).1 (by decide),
   (c7_close_on_success cDb5 [cArtMatched] cDb5 []).2 (by decide)⟩

/-! ## Claim C8: the recorded baseline id does not scope the output -/

/-- Claim C8: `parse_nmap_output` reads the store and the artifacts but never
`self.highest_id`; for any two values of the recorded baseline the entire
result of the correlation pass — including every persisted record — is
identical. -/
theorem c8_baseline_unused (db : DB) (h1 h2 : Nat) (arts : List Artifact) :
    task_parse_nmap_output ⟨db, h1⟩ arts = task_parse_nmap_output ⟨db, h2⟩ arts := rfl

/-! ## Claim C3: threads values that do not coerce -/

/-- Claim C3: `int("abc")` raises `ValueError`, but the `try` at lines 131-134
catches only `TypeError`, so a non-numeric thread-count string escapes `run`
as an unhandled exception instead of failing with the logged error; the
logged-error branch is reachable only for values like `None` whose coercion
raises `TypeError`. -/
theorem c3_valueerror_uncaught :
    threadedNmapScan_run (.pystr abcStr) [] [] cDb5 [] =
      .uncaughtExc (.valueError valueErrorIntMsg) ∧
    threadedNmapScan_run .pynone [] [] cDb5 [] = .threadsErrorLogged := by
  exact ⟨by decide, by decide⟩

/-! ## Claim C4: zero concurrency aborts before dispatch -/

/-- Claim C4: whenever the supplied threads value coerces to zero,
`ThreadPoolExecutor(max_workers=0)` raises
`ValueError("max_workers must be greater than 0")` during construction — the
run aborts with that diagnostic before any command is dispatched (the
`uncaughtExc` outcome carries no dispatched commands and the parse step is
never reached), rather than hanging on an empty worker pool. -/
theorem c4_zero_workers_aborts (threads : PyVal) (ipDict : IpDict) (outDir : List Char)
    (db : DB) (arts : List Artifact) (h : pyAbsInt threads = .ok 0) :
    threadedNmapScan_run threads ipDict outDir db arts =
      .uncaughtExc (.valueError maxWorkersMsg) := by
  unfold threadedNmapScan_run
  rw [h]
  rfl

/-- Claim C4, witness: the abort theorem at the concrete parameter string
`"0"`. -/
theorem c4_witness :
    pyAbsInt (.pystr zeroStr) = .ok 0 ∧
    threadedNmapScan_run (.pystr zeroStr) [] [] cDb5 [] =
      .uncaughtExc (.valueError maxWorkersMsg) :=
  ⟨by decide, c4_zero_workers_aborts (.pystr zeroStr) [] [] cDb5 [] (by decide)⟩

/-! ## Claim C6: scan-type flag and port argument of the command vector -/

theorem slash_mem_oAPath (d t p : List Char) : '/' ∈ oAPath d t p := by
  have hs : '/' ∈ slashNmapDotStr := by decide
  simp [oAPath, List.mem_append, hs]

theorem oAPath_ne_sT (d t p : List Char) : oAPath d t p ≠ sTStr := by
  intro h
  have hm := slash_mem_oAPath d t p
  rw [h] at hm
  exact absurd hm (by decide)

theorem oAPath_ne_sU (d t p : List Char) : oAPath d t p ≠ sUStr := by
  intro h
  have hm := slash_mem_oAPath d t p
  rw [h] at hm
  exact absurd hm (by decide)

/-- Claim C6: in every generated command vector, `-sT` occurs exactly when the
protocol is `tcp` (and `-sU` exactly otherwise), and position 10 — the
argument of `-p` — is the comma-join of the port set's elements.  The target
and the joined port list are assumed distinct from the two flag strings,
which holds for the addresses and numeric port sets the upstream mapping
contains. -/
theorem c6_command_flags (outDir target protocol : List Char) (ports : List (List Char))
    (ht : target ≠ sTStr ∧ target ≠ sUStr)
    (hj : List.intercalate commaStr ports ≠ sTStr ∧ List.intercalate commaStr ports ≠ sUStr) :
    ((sTStr ∈ buildCommand outDir target protocol ports) ↔ protocol = tcpStr) ∧
    ((sUStr ∈ buildCommand outDir target protocol ports) ↔ protocol ≠ tcpStr) ∧
    (buildCommand outDir target protocol ports)[10]? =
      some (List.intercalate commaStr ports) := by
  refine ⟨⟨fun hmem => ?_, fun hp => ?_⟩, ⟨fun hmem => ?_, fun hp => ?_⟩, rfl⟩
  · by_contra hp
    rw [buildCommand, if_neg hp] at hmem
    simp only [List.mem_cons, List.not_mem_nil, or_false] at hmem
    rcases hmem with h | h | h | h | h | h | h | h | h | h | h | h | h | h
    all_goals first
      | exact absurd h (by decide)
      | exact hj.1 h.symm
      | exact ht.1 h.symm
      | exact oAPath_ne_sT outDir target protocol h.symm
  · subst hp
    simp [buildCommand]
  · intro hp
    rw [buildCommand, if_pos hp] at hmem
    simp only [List.mem_cons, List.not_mem_nil, or_false] at hmem
    rcases hmem with h | h | h | h | h | h | h | h | h | h | h | h | h | h
    all_goals first
      | exact absurd h (by decide)
      | exact hj.2 h.symm
      | exact ht.2 h.symm
      | exact oAPath_ne_sU outDir target protocol h.symm
  · rw [buildCommand, if_neg hp]
    simp

/-- Claim C6, witness: the command-vector theorem at the concrete triple
(`10.10.10.5`, `tcp`, `{22, 80}`). -/
theorem c6_witness :
    (sTStr ∈ buildCommand cOutDirStr ip5Str tcpStr cPorts) ∧
    (buildCommand cOutDirStr ip5Str tcpStr cPorts)[10]? =
      some (List.intercalate commaStr cPorts) :=
  ⟨(c6_command_flags cOutDirStr ip5Str tcpStr cPorts (by decide) (by decide)).1.mpr rfl,
   (c6_command_flags cOutDirStr ip5Str tcpStr cPorts (by decide) (by decide)).2.2⟩

end ReconPipeline
